import Mathlib

/-!
# Verification of the LCppC per-TU analysis core

Shallow embedding of the CTU summary store (`src/lib/ctu.cpp`), the
value-flow `Value` envelope (`src/lib/valueflow.h`) and the analysis
driver / diagnostic bus (`src/lib/cppcheck.cpp`), together with theorems
settling the frozen claims about them.

Machine integers of the source (`long long`, `int64_t`, `MathLib::bigint`)
are modelled as `Int`; unsigned counters as `Nat`; C++ strings as `String`.
-/

namespace LCppC

/-! ## ValueFlow::Value (src/lib/valueflow.h)

`enum ValueType : uint8_t { INT, TOK, FLOAT, MOVED, UNINIT, CONTAINER_SIZE,
LIFETIME, BUFFER_SIZE }`. -/

inductive ValueType : Type where
  | INT
  | TOK
  | FLOAT
  | MOVED
  | UNINIT
  | CONTAINER_SIZE
  | LIFETIME
  | BUFFER_SIZE
deriving DecidableEq, Repr

/-- The numeric value of each `ValueType` enumerator (declaration order,
starting at 0, as the C++ `uint8_t` enum). -/
def ValueType.toNat : ValueType → Nat
  | .INT => 0
  | .TOK => 1
  | .FLOAT => 2
  | .MOVED => 3
  | .UNINIT => 4
  | .CONTAINER_SIZE => 5
  | .LIFETIME => 6
  | .BUFFER_SIZE => 7

/-- The C++ cast `(ValueFlow::Value::ValueType)n` used by
`FunctionCall::loadFromXml`.  Values outside the enumerator range are not
produced by the serializer; they are mapped to `INT` (= 0), matching the
all-zero default the loader starts from. -/
def ValueType.castOfNat : Nat → ValueType
  | 0 => .INT
  | 1 => .TOK
  | 2 => .FLOAT
  | 3 => .MOVED
  | 4 => .UNINIT
  | 5 => .CONTAINER_SIZE
  | 6 => .LIFETIME
  | 7 => .BUFFER_SIZE
  | _ => .INT

/-- Source `enum class Bound : uint8_t { Upper, Lower, Point }`. -/
inductive Bound : Type where
  | Upper
  | Lower
  | Point
deriving DecidableEq, Repr

/-- Source `enum class ValueKind : uint8_t { Possible, Known, Inconclusive,
Impossible }`. -/
inductive ValueKind : Type where
  | Possible
  | Known
  | Inconclusive
  | Impossible
deriving DecidableEq, Repr

/-- Source `ErrorMessage::FileLocation` as used by ctu.cpp: file string, signed
line, unsigned column, info string.  `setfile`/`getfile` path
normalization is outside src/ and modelled as the identity. -/
structure FileLocation where
  fileName : String
  line : Int
  column : Nat
  info : String
deriving DecidableEq, Repr

/-- The fields of `ValueFlow::Value` which `visitValue`, `decreaseRange`,
`invertBound` and `invertRange` read or write, plus the classification
fields.  Pointer-valued provenance fields (`tokvalue`, `condition`) are
modelled as presence flags where the embedded code only tests them for
null. -/
structure Value : Type where
  valueType : ValueType
  bound : Bound
  intvalue : Int
  floatValue : Float
  valueKind : ValueKind
  hasCondition : Bool
  defaultArg : Bool
  errorPath : List FileLocation
deriving Repr

def Value.isIntValue (v : Value) : Bool := v.valueType = ValueType.INT
def Value.isBufferSizeValue (v : Value) : Bool := v.valueType = ValueType.BUFFER_SIZE
def Value.isInconclusive (v : Value) : Bool := v.valueKind = ValueKind.Inconclusive
def Value.isImpossible (v : Value) : Bool := v.valueKind = ValueKind.Impossible

/-- Source `errorSeverity() const { return !condition && !defaultArg; }` -/
def Value.errorSeverity (v : Value) : Bool := !v.hasCondition && !v.defaultArg

/-- Source `visitValue(F f)`: applies the functor to `intvalue` for the
integer-like tags, to `floatValue` for `FLOAT`, and does nothing for the
payload-less tags.  The polymorphic C++ functor is passed as one function
per visited field. -/
def Value.visitValue (v : Value) (fInt : Int → Int) (fFloat : Float → Float) : Value :=
  match v.valueType with
  | .INT | .BUFFER_SIZE | .CONTAINER_SIZE => { v with intvalue := fInt v.intvalue }
  | .FLOAT => { v with floatValue := fFloat v.floatValue }
  | .UNINIT | .TOK | .LIFETIME | .MOVED => v

/-- Source `decreaseRange()`: increment on a lower bound, decrement on an upper
bound, identity on a point. -/
def Value.decreaseRange (v : Value) : Value :=
  if v.bound = Bound.Lower then v.visitValue (· + 1) (· + 1.0)
  else if v.bound = Bound.Upper then v.visitValue (· - 1) (· - 1.0)
  else v

/-- Source `invertBound()`: swap `Lower` and `Upper`, leave `Point` alone. -/
def Value.invertBound (v : Value) : Value :=
  if v.bound = Bound.Lower then { v with bound := Bound.Upper }
  else if v.bound = Bound.Upper then { v with bound := Bound.Lower }
  else v

/-- Source `invertRange()`: `invertBound(); decreaseRange();`. -/
def Value.invertRange (v : Value) : Value :=
  v.invertBound.decreaseRange

end LCppC

namespace LCppC

/-! ## Claims about `Value` bound shrinking -/

/-- Claim C9: for every `Value` with an integer-like payload (`INT`,
`BUFFER_SIZE`, `CONTAINER_SIZE`), `decreaseRange()` increments the payload
when `bound` is `Lower`, decrements it when `bound` is `Upper`, and leaves
the value unchanged when `bound` is `Point`; `invertRange()` swaps
`Lower` and `Upper` and then shrinks by one in the same way, so a `Point`
value is left completely unchanged by both. -/
theorem decreaseRange_invertRange_spec (v : Value)
    (hint : v.valueType = ValueType.INT ∨ v.valueType = ValueType.BUFFER_SIZE ∨
            v.valueType = ValueType.CONTAINER_SIZE) :
    (v.bound = Bound.Lower →
        v.decreaseRange = { v with intvalue := v.intvalue + 1 } ∧
        v.invertRange = { v with bound := Bound.Upper, intvalue := v.intvalue - 1 }) ∧
    (v.bound = Bound.Upper →
        v.decreaseRange = { v with intvalue := v.intvalue - 1 } ∧
        v.invertRange = { v with bound := Bound.Lower, intvalue := v.intvalue + 1 }) ∧
    (v.bound = Bound.Point →
        v.decreaseRange = v ∧ v.invertRange = v) := by
  obtain ⟨vt, bd, iv, fv, vk, hc, da, ep⟩ := v
  rcases hint with h | h | h <;> subst h <;>
    refine ⟨fun hb => ?_, fun hb => ?_, fun hb => ?_⟩ <;>
    simp only at hb <;> subst hb <;>
    simp [Value.decreaseRange, Value.invertRange, Value.invertBound, Value.visitValue]

/-- Witness for C9 at a concrete lower-bound `INT` value. -/
theorem decreaseRange_invertRange_spec_witness :
    let v : Value := { valueType := ValueType.INT, bound := Bound.Lower,
                       intvalue := 5, floatValue := 0.0,
                       valueKind := ValueKind.Possible,
                       hasCondition := false, defaultArg := false,
                       errorPath := [] }
    v.decreaseRange = { v with intvalue := 6 } ∧
    v.invertRange = { v with bound := Bound.Upper, intvalue := 4 } := by
  intro v
  have h := (decreaseRange_invertRange_spec v (Or.inl rfl)).1 rfl
  exact ⟨h.1, h.2⟩

end LCppC

namespace LCppC

/-! ## CTU summary records (src/lib/ctu.cpp)

Attribute-name constants, lines 32-46 of ctu.cpp. -/

def ATTR_CALL_ID : String := "call-id"
def ATTR_CALL_FUNCNAME : String := "call-funcname"
def ATTR_CALL_ARGNR : String := "call-argnr"
def ATTR_CALL_ARGEXPR : String := "call-argexpr"
def ATTR_CALL_ARGVALUETYPE : String := "call-argvaluetype"
def ATTR_CALL_ARGVALUE : String := "call-argvalue"
def ATTR_WARNING : String := "warning"
def ATTR_LOC_FILENAME : String := "file"
def ATTR_LOC_LINENR : String := "line"
def ATTR_LOC_COLUMN : String := "col"
def ATTR_INFO : String := "info"
def ATTR_MY_ID : String := "my-id"
def ATTR_MY_ARGNR : String := "my-argnr"
def ATTR_MY_ARGNAME : String := "my-argname"
def ATTR_VALUE : String := "value"

/-- Source `CTU::CTUInfo::Location`: file name, unsigned line, unsigned column. -/
structure Location where
  fileName : String
  lineNumber : Nat
  column : Nat
deriving DecidableEq, Repr

/-- The data members of `CTU::CTUInfo::CallBase`. -/
structure CallBaseFields where
  callId : String
  callArgNr : Nat
  callFunctionName : String
  location : Location
deriving DecidableEq, Repr

/-- Source `CTU::CTUInfo::FunctionCall`. -/
structure FunctionCall extends CallBaseFields where
  callArgumentExpression : String
  callValueType : ValueType
  callArgValue : Int
  warning : Bool
  callValuePath : List FileLocation
deriving DecidableEq, Repr

/-- Source `CTU::CTUInfo::NestedCall`. -/
structure NestedCall extends CallBaseFields where
  myId : String
  myArgNr : Nat
deriving DecidableEq, Repr

/-- Source `CTU::CTUInfo::UnsafeUsage`. -/
structure UnsafeUsage where
  myId : String
  myArgNr : Nat
  myArgumentName : String
  location : Location
  value : Int
deriving DecidableEq, Repr

/-- The `CallBase` pointer dichotomy resolved by the two `dynamic_cast`s
in `findPath`: every element of the calls map is either a `FunctionCall`
or a `NestedCall`. -/
inductive CallBase : Type where
  | fc (f : FunctionCall)
  | nc (n : NestedCall)
deriving DecidableEq, Repr

/-! ## tinyxml2 model

An element is a name, an ordered attribute list and an ordered child
list.  `SetAttribute` replaces the value of an existing attribute of the
same name, otherwise appends; overloads for numbers render the decimal
text, the `bool` overload renders `true`/`false`. -/

inductive XMLElement : Type where
  | mk (name : String) (attributes : List (String × String)) (children : List XMLElement)

def XMLElement.name : XMLElement → String
  | .mk n _ _ => n

def XMLElement.attributes : XMLElement → List (String × String)
  | .mk _ a _ => a

def XMLElement.children : XMLElement → List XMLElement
  | .mk _ _ c => c

/-- Source `XMLElement::Attribute(name)`: the stored text, if present. -/
def XMLElement.attr (e : XMLElement) (key : String) : Option String :=
  (e.attributes.find? (·.1 == key)).map (·.2)

/-- Source `XMLElement::SetAttribute(name, value)` (string form). -/
def XMLElement.setAttr (e : XMLElement) (key value : String) : XMLElement :=
  match e with
  | .mk n as cs =>
    if as.any (·.1 == key) then
      .mk n (as.map (fun p => if p.1 == key then (key, value) else p)) cs
    else
      .mk n (as ++ [(key, value)]) cs

/-- Source `SetAttribute` with an unsigned / enum-converted-to-integer value. -/
def XMLElement.setAttrNat (e : XMLElement) (key : String) (value : Nat) : XMLElement :=
  e.setAttr key (toString value)

/-- Source `SetAttribute` with an `int64_t` value. -/
def XMLElement.setAttrInt (e : XMLElement) (key : String) (value : Int) : XMLElement :=
  e.setAttr key (toString value)

/-- Source `SetAttribute` with a `bool` value. -/
def XMLElement.setAttrBool (e : XMLElement) (key : String) (value : Bool) : XMLElement :=
  e.setAttr key (if value then "true" else "false")

/-- Source `XMLElement::InsertEndChild`. -/
def XMLElement.insertEndChild (e : XMLElement) (child : XMLElement) : XMLElement :=
  match e with
  | .mk n as cs => .mk n as (cs ++ [child])

/-- Decimal digit accumulator for `parseNat`. -/
def parseNatAux : List Char → Nat → Option Nat
  | [], acc => some acc
  | c :: cs, acc =>
    if c.isDigit then parseNatAux cs (acc * 10 + (c.toNat - '0'.toNat))
    else none

/-- Parse a canonical decimal `Nat` (at least one digit, digits only). -/
def parseNat (s : String) : Option Nat :=
  match s.data with
  | [] => none
  | cs => parseNatAux cs 0

/-- Parse a canonical decimal `Int` (optional leading minus sign). -/
def parseInt (s : String) : Option Int :=
  match s.data with
  | '-' :: cs => (parseNatAux cs 0).map (fun n => -(n : Int))
  | cs =>
    match cs with
    | [] => none
    | _ => (parseNatAux cs 0).map (fun n => (n : Int))

/-! Attribute readers, ctu.cpp lines 124-146.  The numeric readers mirror
tinyxml2's `Query*Attribute`: a missing attribute leaves the output at 0
and does *not* raise the error flag (`XML_NO_ATTRIBUTE`); unparsable text
raises it (`XML_WRONG_ATTRIBUTE_TYPE`).  Parsing is modelled by
`parseNat`/`parseInt`, which agree with `sscanf` on the canonical decimal
text this serializer emits.  Each reader returns (value, error-flag
contribution). -/

def readAttrString (e : XMLElement) (a : String) : String × Bool :=
  match e.attr a with
  | some v => (v, false)
  | none => ("", true)

def readAttrInt64 (e : XMLElement) (a : String) : Int × Bool :=
  match e.attr a with
  | none => (0, false)
  | some s =>
    match parseInt s with
    | some v => (v, false)
    | none => (0, true)

def readAttrUInt (e : XMLElement) (a : String) : Nat × Bool :=
  match e.attr a with
  | none => (0, false)
  | some s =>
    match parseNat s with
    | some v => (v, false)
    | none => (0, true)

/-! ## Serialization (ctu.cpp lines 62-107) -/

/-- Source `FunctionCall::toXMLElement`, ctu.cpp lines 62-86, verbatim: note that
the value type is stored under `ATTR_MY_ARGNR` (line 72) and that the
per-path attributes are set on `entry`, not on the freshly created `path`
child (lines 79-82), which is inserted empty. -/
def FunctionCall.toXMLElement (f : FunctionCall) : XMLElement :=
  let entry := XMLElement.mk "function-call" [] []
  let entry := entry.setAttr ATTR_CALL_ID f.callId
  let entry := entry.setAttr ATTR_CALL_FUNCNAME f.callFunctionName
  let entry := entry.setAttrNat ATTR_CALL_ARGNR f.callArgNr
  let entry := entry.setAttr ATTR_LOC_FILENAME f.location.fileName
  let entry := entry.setAttrNat ATTR_LOC_LINENR f.location.lineNumber
  let entry := entry.setAttrNat ATTR_LOC_COLUMN f.location.column
  let entry := entry.setAttr ATTR_CALL_ARGEXPR f.callArgumentExpression
  let entry := entry.setAttrNat ATTR_MY_ARGNR f.callValueType.toNat
  let entry := entry.setAttrInt ATTR_CALL_ARGVALUE f.callArgValue
  let entry := if f.warning then entry.setAttrBool ATTR_WARNING true else entry
  f.callValuePath.foldl (fun entry loc =>
    let path := XMLElement.mk "path" [] []
    let entry := entry.setAttr ATTR_LOC_FILENAME loc.fileName
    let entry := entry.setAttrInt ATTR_LOC_LINENR loc.line
    let entry := entry.setAttrNat ATTR_LOC_COLUMN loc.column
    let entry := entry.setAttr ATTR_INFO loc.info
    entry.insertEndChild path) entry

/-- Source `NestedCall::toXMLElement`, ctu.cpp lines 88-94: only `my-id` and
`my-argnr` are written. -/
def NestedCall.toXMLElement (n : NestedCall) : XMLElement :=
  let entry := XMLElement.mk "nested-call" [] []
  let entry := entry.setAttr ATTR_MY_ID n.myId
  entry.setAttrNat ATTR_MY_ARGNR n.myArgNr

/-- Source `UnsafeUsage::toXMLElement`, ctu.cpp lines 96-107. -/
def UnsafeUsage.toXMLElement (u : UnsafeUsage) : XMLElement :=
  let entry := XMLElement.mk "unsafe-usage" [] []
  let entry := entry.setAttr ATTR_MY_ID u.myId
  let entry := entry.setAttrNat ATTR_MY_ARGNR u.myArgNr
  let entry := entry.setAttr ATTR_MY_ARGNAME u.myArgumentName
  let entry := entry.setAttr ATTR_LOC_FILENAME u.location.fileName
  let entry := entry.setAttrNat ATTR_LOC_LINENR u.location.lineNumber
  let entry := entry.setAttrNat ATTR_LOC_COLUMN u.location.column
  entry.setAttrInt ATTR_VALUE u.value

/-! ## Deserialization (ctu.cpp lines 148-205) -/

/-- Source `CallBase::loadBaseFromXml`: `none` when any of the six reads raised
the error flag. -/
def loadBaseFromXml (e : XMLElement) : Option CallBaseFields :=
  let (callId, b1) := readAttrString e ATTR_CALL_ID
  let (callFunctionName, b2) := readAttrString e ATTR_CALL_FUNCNAME
  let (callArgNr, b3) := readAttrUInt e ATTR_CALL_ARGNR
  let (file, b4) := readAttrString e ATTR_LOC_FILENAME
  let (line, b5) := readAttrUInt e ATTR_LOC_LINENR
  let (col, b6) := readAttrUInt e ATTR_LOC_COLUMN
  if b1 || b2 || b3 || b4 || b5 || b6 then none
  else some { callId, callArgNr, callFunctionName, location := ⟨file, line, col⟩ }

/-- The `path`-children loop of `FunctionCall::loadFromXml` (lines
170-178): each `path` child's four attributes are read into a local
`FileLocation` that is then discarded; only the error flag survives.
Returns whether the loop raised the error flag. -/
def loadPathChildrenError : List XMLElement → Bool
  | [] => false
  | c :: rest =>
    if c.name ≠ "path" then loadPathChildrenError rest
    else
      let (_, b1) := readAttrString c ATTR_LOC_FILENAME
      let (_, b2) := readAttrInt64 c ATTR_LOC_LINENR
      let (_, b3) := readAttrUInt c ATTR_LOC_COLUMN
      let (_, b4) := readAttrString c ATTR_INFO
      if b1 || b2 || b3 || b4 then true else loadPathChildrenError rest

/-- Source `FunctionCall::loadFromXml` (lines 160-180).  `callValuePath` is never
appended to by the source loop, so it stays empty. -/
def FunctionCall.loadFromXml (e : XMLElement) : Option FunctionCall :=
  match loadBaseFromXml e with
  | none => none
  | some base =>
    let (callArgumentExpression, b1) := readAttrString e ATTR_CALL_ARGEXPR
    let (vt, b2) := readAttrUInt e ATTR_CALL_ARGVALUETYPE
    let (callArgValue, b3) := readAttrInt64 e ATTR_CALL_ARGVALUE
    let warning := e.attr ATTR_WARNING == some "true"
    if b1 || b2 || b3 || loadPathChildrenError e.children then none
    else some { base with
      callArgumentExpression, callValueType := ValueType.castOfNat vt,
      callArgValue, warning, callValuePath := [] }

/-- Source `NestedCall::loadFromXml` (lines 182-190). -/
def NestedCall.loadFromXml (e : XMLElement) : Option NestedCall :=
  match loadBaseFromXml e with
  | none => none
  | some base =>
    let (myId, b1) := readAttrString e ATTR_MY_ID
    let (myArgNr, b2) := readAttrUInt e ATTR_MY_ARGNR
    if b1 || b2 then none
    else some { base with myId, myArgNr }

/-- Source `CTUInfo::loadFromXml` (lines 192-205): collect the `function-call`
and `nested-call` children that load successfully, in document order.
Returns (functionCalls, nestedCalls). -/
def loadCallsFromXml (root : XMLElement) : List FunctionCall × List NestedCall :=
  root.children.foldl (fun acc e =>
    if e.name = "function-call" then
      match FunctionCall.loadFromXml e with
      | some f => (acc.1 ++ [f], acc.2)
      | none => acc
    else if e.name = "nested-call" then
      match NestedCall.loadFromXml e with
      | some n => (acc.1, acc.2 ++ [n])
      | none => acc
    else acc) ([], [])

end LCppC

namespace LCppC

/-! ## CTUInfo state, analyzer-file writing and loading
(ctu.cpp lines 534-628) -/

/-- Model of `ErrorMessage` restricted to the observations the code under
src/ makes of one: the rendered template text (`msg.toString`) and the
oracle answers of the library / suppression queries consulted by
`CppCheck::reportErr`.  `ErrorMessage`'s own fields and XML form live
outside src/. -/
structure ErrMsg where
  id : String
  rendered : String
  libraryReportable : Bool
  suppressedGlobal : Bool
  suppressedLocal : Bool
  nofailSuppressed : Bool
deriving DecidableEq, Repr

/-- A registered `Check` as seen by `tryLoadFromFile`: a name and a
`loadFileInfoFromXml` deserializer.  Modelled from the spec: per-check
`FileInfo` blobs are opaque; they are represented by the XML element that
carries them, so `loadFileInfoFromXml` returns the blob and
`FileInfo::toXMLElement` returns it back (check implementations are not
under src/). -/
structure CheckM where
  name : String
  loadFileInfoFromXml : XMLElement → XMLElement

/-- Source `std::map` assignment `m[k] = v`: replace the value at an existing
key, otherwise insert. -/
def mapSet {α : Type} (m : List (String × α)) (k : String) (v : α) : List (String × α) :=
  if m.any (·.1 == k) then
    m.map (fun p => if p.1 == k then (k, v) else p)
  else m ++ [(k, v)]

/-- The state of a `CTU::CTUInfo` as read and written by
`tryLoadFromFile` / `writeFile` / `addCheckInfo` / `reportErr`.
`analyzerfileDoc` is the parse result of the analyzer file:
`none` models a missing file or a tinyxml2 load error or an empty
document (no root element). -/
structure CTUInfoM where
  sourcefile : String
  analyzerfileExists : Bool
  analyzerfileDoc : Option XMLElement
  mChecksum : Nat
  mErrors : List ErrMsg
  functionCalls : List FunctionCall
  nestedCalls : List NestedCall
  mCheckInfo : List (String × XMLElement)

/-- Source `CTUInfo::reportErr` (ctu.cpp lines 553-556). -/
def CTUInfoM.reportErr (ctu : CTUInfoM) (msg : ErrMsg) : CTUInfoM :=
  { ctu with mErrors := ctu.mErrors ++ [msg] }

/-- Source `CTUInfo::addCheckInfo` (ctu.cpp lines 534-537). -/
def CTUInfoM.addCheckInfo (ctu : CTUInfoM) (check : String) (fi : XMLElement) : CTUInfoM :=
  { ctu with mCheckInfo := mapSet ctu.mCheckInfo check fi }

/-- Source `CTUInfo::tryLoadFromFile(checksum)` (ctu.cpp lines 558-593).
`parseError` stands for the `ErrorMessage` XML constructor and `checks`
for `Check::instances()`, both outside src/.  Returns the C++ return
value paired with the updated object. -/
def CTUInfoM.tryLoadFromFile (parseError : XMLElement → ErrMsg) (checks : List CheckM)
    (checksum : Nat) (ctu : CTUInfoM) : Bool × CTUInfoM :=
  let ctu := { ctu with mChecksum := checksum }
  if ctu.sourcefile = "" ∨ ¬ctu.analyzerfileExists then (false, ctu)
  else
    match ctu.analyzerfileDoc with
    | none => (false, ctu)
    | some root =>
      match root.attr "checksum" with
      | none => (false, ctu)
      | some a =>
        if a ≠ toString checksum then (false, ctu)
        else
          (true, root.children.foldl (fun acc e =>
            if e.name = "error" then acc.reportErr (parseError e)
            else
              match checks.find? (fun c => c.name == e.name) with
              | some c => acc.addCheckInfo c.name (c.loadFileInfoFromXml e)
              | none => acc) ctu)

/-- Source `CTUInfo::writeFile()` (ctu.cpp lines 595-628) up to the final
`SaveFile`: the document that is written, `none` when `sourcefile` is
empty and nothing is written.  `errorToXML` stands for
`ErrorMessage::toXMLElement` (outside src/); the stored per-check blobs
are re-emitted as such (`toXMLElement` never null in this model).
Children are inserted in source order: errors, function calls, nested
calls, check info. -/
def CTUInfoM.writeFileDoc (errorToXML : ErrMsg → XMLElement) (ctu : CTUInfoM) :
    Option XMLElement :=
  if ctu.sourcefile = "" then none
  else
    let root := (XMLElement.mk "analyzerinfo" [] []).setAttrNat "checksum" ctu.mChecksum
    let root := ctu.mErrors.foldl (fun r e => r.insertEndChild (errorToXML e)) root
    let root := ctu.functionCalls.foldl (fun r e => r.insertEndChild e.toXMLElement) root
    let root := ctu.nestedCalls.foldl (fun r e => r.insertEndChild e.toXMLElement) root
    some (ctu.mCheckInfo.foldl (fun r ci => r.insertEndChild ci.2) root)

end LCppC

namespace LCppC

/-! ## The C1 round-trip claim -/

/-- A concrete recorded `FunctionCall`: `f(p)` with an `UNINIT` argument
value, as `parseTokens` produces for `f(&x)` with `x` uninitialized. -/
def fcUninit : FunctionCall :=
  { callId := "a.c:1:6", callArgNr := 1, callFunctionName := "f",
    location := ⟨"b.c", 10, 5⟩, callArgumentExpression := "x",
    callValueType := ValueType.UNINIT, callArgValue := 0,
    warning := false, callValuePath := [] }

/-- A concrete recorded `NestedCall`. -/
def ncSample : NestedCall :=
  { callId := "a.c:1:6", callArgNr := 1, callFunctionName := "f",
    location := ⟨"b.c", 12, 3⟩, myId := "b.c:11:6", myArgNr := 2 }

/-- A populated `CTUInfo` about to be cached. -/
def ctuOrig : CTUInfoM :=
  { sourcefile := "b.c", analyzerfileExists := true, analyzerfileDoc := none,
    mChecksum := 7, mErrors := [], functionCalls := [fcUninit],
    nestedCalls := [ncSample], mCheckInfo := [] }

/-- The document `ctuOrig.writeFile()` saves (placeholder error
serializer; `ctuOrig` has no errors). -/
def ctuWrittenRoot : XMLElement :=
  (ctuOrig.writeFileDoc (fun _ => XMLElement.mk "error" [] [])).getD
    (XMLElement.mk "analyzerinfo" [] [])

/-- A fresh `CTUInfo` for the same source whose analyzer file now holds
`ctuWrittenRoot`. -/
def ctuFresh : CTUInfoM :=
  { sourcefile := "b.c", analyzerfileExists := true,
    analyzerfileDoc := some ctuWrittenRoot, mChecksum := 0, mErrors := [],
    functionCalls := [], nestedCalls := [], mCheckInfo := [] }

/-- Claim C1: the write/load round trip does *not* recover the call
summaries, refuting the claimed pointwise equality.  On a `CTUInfo`
holding one `FunctionCall` (with `callValueType = UNINIT`) and one
`NestedCall`, `writeFile()` followed by a successful
`tryLoadFromFile(checksum)` on a fresh `CTUInfo` yields **empty**
`functionCalls` and `nestedCalls`: `tryLoadFromFile` only consumes
`error` and check-info children.  Even the dedicated
`CTUInfo::loadFromXml` cannot recover them from the written document: it
returns the function call with `callValueType = INT` (the writer stores
the value type under `my-argnr` while the loader reads
`call-argvaluetype`), and drops the nested call entirely (the writer
omits the `call-id`/`call-funcname`/`call-argnr`/location attributes that
`loadBaseFromXml` requires). -/
theorem ctu_write_load_roundtrip_fails :
    (CTUInfoM.tryLoadFromFile (fun _ => ⟨"", "", true, false, false, false⟩) [] 7 ctuFresh).1
        = true ∧
    (CTUInfoM.tryLoadFromFile (fun _ => ⟨"", "", true, false, false, false⟩) [] 7 ctuFresh).2.functionCalls
        = [] ∧
    (CTUInfoM.tryLoadFromFile (fun _ => ⟨"", "", true, false, false, false⟩) [] 7 ctuFresh).2.nestedCalls
        = [] ∧
    ctuOrig.functionCalls ≠ [] ∧
    ctuOrig.nestedCalls ≠ [] ∧
    (loadCallsFromXml ctuWrittenRoot).1.map (fun f => f.callValueType) = [ValueType.INT] ∧
    ctuOrig.functionCalls.map (fun f => f.callValueType) = [ValueType.UNINIT] ∧
    (loadCallsFromXml ctuWrittenRoot).2 = [] := by
  decide

end LCppC

namespace LCppC

/-! ## findPath (ctu.cpp lines 436-491)

`CTU::maxCtuDepth` (an `int`, set from `project.maxCtuDepth`) is passed
explicitly.  The calls map `std::map<std::string, std::vector<const
CallBase*>>` is an association list; `getCallsMap` (lines 207-215) fills
it per `callId`.  The `path[10]` output array is not modelled: the
claims concern only the boolean result. -/

/-- Source `CTU::CTUInfo::InvalidValueType`. -/
inductive InvalidValueType : Type where
  | null
  | uninit
  | bufferOverflow
deriving DecidableEq, Repr

/-- The `switch (invalidValue)` acceptance test applied to a
`FunctionCall` caller in `findPath` (lines 458-475), including the
preceding `warning` skip (lines 458-459): `continue` becomes `false`,
reaching `path[index] = functionCall; return true` becomes `true`. -/
def acceptFunctionCall (invalidValue : InvalidValueType) (unsafeValue : Int)
    (warning : Bool) (f : FunctionCall) : Bool :=
  if !warning && f.warning then false
  else
    match invalidValue with
    | .null => f.callValueType = ValueType.INT && f.callArgValue = 0
    | .uninit => f.callValueType = ValueType.UNINIT
    | .bufferOverflow =>
      f.callValueType = ValueType.BUFFER_SIZE &&
        (unsafeValue < 0 || unsafeValue ≥ f.callArgValue)

mutual

/-- Source `findPath` (ctu.cpp lines 436-491).  The C++ recursion is bounded by
the guard `index >= CTU::maxCtuDepth || index >= 10`; the Lean function
is total by well-founded recursion on `10 - index`, which is the
formalization of the termination half of the claims. -/
def findPath (maxCtuDepth : Int)
    (callsMap : List (String × List CallBase))
    (unsafeValue : Int) (invalidValue : InvalidValueType) (warning : Bool)
    (callId : String) (callArgNr : Nat) (index : Nat) : Bool :=
  if h : maxCtuDepth ≤ (index : Int) ∨ 10 ≤ index then false
  else
    match callsMap.lookup callId with
    | none => false
    | some cs =>
      findPathLoop maxCtuDepth callsMap unsafeValue invalidValue warning callArgNr
        index (by omega) cs
termination_by (10 - index, 1, 0)

/-- The `for (const CallBase *c : it->second)` loop body of `findPath`
(lines 452-488).  The hypothesis `index < 10` records the depth guard
already checked by the caller. -/
def findPathLoop (maxCtuDepth : Int)
    (callsMap : List (String × List CallBase))
    (unsafeValue : Int) (invalidValue : InvalidValueType) (warning : Bool)
    (callArgNr : Nat) (index : Nat) (h : index < 10) :
    List CallBase → Bool
  | [] => false
  | c :: cs =>
    match c with
    | .fc f =>
      if f.callArgNr = callArgNr ∧
          acceptFunctionCall invalidValue unsafeValue warning f = true then true
      else findPathLoop maxCtuDepth callsMap unsafeValue invalidValue warning
        callArgNr index h cs
    | .nc n =>
      if n.callArgNr = callArgNr ∧
          findPath maxCtuDepth callsMap unsafeValue invalidValue warning
            n.myId n.myArgNr (index + 1) = true then true
      else findPathLoop maxCtuDepth callsMap unsafeValue invalidValue warning
        callArgNr index h cs
termination_by cs => (10 - index, 0, cs.length)

end

/-- Source `CTUInfo::getCallsMap` (ctu.cpp lines 207-215): group nested calls,
then function calls, by `callId` (std::map iteration order is not needed
by the claims; entries are grouped as in the source: nested calls first
within one key). -/
def getCallsMap (functionCalls : List FunctionCall) (nestedCalls : List NestedCall) :
    List (String × List CallBase) :=
  let step := fun (m : List (String × List CallBase)) (key : String) (c : CallBase) =>
    if m.any (·.1 == key) then
      m.map (fun p => if p.1 == key then (p.1, p.2 ++ [c]) else p)
    else m ++ [(key, [c])]
  let m := nestedCalls.foldl (fun m n => step m n.callId (CallBase.nc n)) []
  functionCalls.foldl (fun m f => step m f.callId (CallBase.fc f)) m

end LCppC

namespace LCppC

/-! ## Claims about findPath -/

/-- Claim C3: for a callsMap entry matching the sought `callId`, a
`FunctionCall` caller with equal `callArgNr` is accepted (path found) iff
its payload satisfies the invalid predicate — `null`: `callValueType`
`INT` and `callArgValue == 0`; `uninit`: `callValueType` `UNINIT`;
`bufferOverflow`: `callValueType` `BUFFER_SIZE` and the unsafe value
outside `[0, callArgValue)` — and a `warning`-flagged `FunctionCall` is
skipped whenever the `warning` parameter is false. -/
theorem findPath_caller_acceptance (mcd unsafeValue : Int) (iv : InvalidValueType)
    (w : Bool) (id : String) (argnr : Nat) (f : FunctionCall)
    (hmcd : 0 < mcd) :
    findPath mcd [(id, [CallBase.fc f])] unsafeValue iv w id argnr 0 = true ↔
      (f.callArgNr = argnr ∧ (w = true ∨ f.warning = false) ∧
        match iv with
        | .null => f.callValueType = ValueType.INT ∧ f.callArgValue = 0
        | .uninit => f.callValueType = ValueType.UNINIT
        | .bufferOverflow =>
            f.callValueType = ValueType.BUFFER_SIZE ∧
              (unsafeValue < 0 ∨ f.callArgValue ≤ unsafeValue)) := by
  have h0 : ¬(mcd ≤ ((0 : Nat) : Int) ∨ 10 ≤ (0 : Nat)) := by omega
  rw [findPath, dif_neg h0]
  simp only [List.lookup, beq_self_eq_true]
  rw [findPathLoop]
  cases iv <;> cases hw : w <;> cases hfw : f.warning <;>
    simp [findPathLoop, acceptFunctionCall, hfw]

/-- Witness for C3: a concrete `UNINIT` caller is accepted. -/
theorem findPath_caller_acceptance_witness :
    findPath 2 [("g.c:4:6", [CallBase.fc fcUninit])] 0 InvalidValueType.uninit
        false "g.c:4:6" 1 0 = true := by
  exact (findPath_caller_acceptance 2 0 InvalidValueType.uninit false "g.c:4:6" 1
      fcUninit (by decide)).mpr ⟨rfl, Or.inr rfl, rfl⟩

/-- Claim C4: `findPath` terminates (it is a total function, defined by
well-founded recursion on `10 - index`), and whenever the recursion index
reaches `min(CTU::maxCtuDepth, 10)` it returns `false` for *every* calls
map, i.e. without consulting the map; recursion through a `NestedCall`
entry increases the index by exactly 1 per level. -/
theorem findPath_depth_cap (mcd unsafeValue : Int) (iv : InvalidValueType) (w : Bool)
    (id : String) (argnr : Nat) (index : Nat) :
    (∀ callsMap, min mcd 10 ≤ (index : Int) →
        findPath mcd callsMap unsafeValue iv w id argnr index = false) ∧
    (∀ n : NestedCall, (index : Int) < min mcd 10 → n.callArgNr = argnr →
        findPath mcd [(id, [CallBase.nc n])] unsafeValue iv w id argnr index =
          findPath mcd [(id, [CallBase.nc n])] unsafeValue iv w n.myId n.myArgNr
            (index + 1)) := by
  constructor
  · intro callsMap h
    rw [findPath, dif_pos (by omega)]
  · intro n hlt harg
    have h0 : ¬(mcd ≤ (index : Int) ∨ 10 ≤ index) := by omega
    rw [findPath, dif_neg h0]
    simp only [List.lookup, beq_self_eq_true]
    rw [findPathLoop]
    simp only [harg, true_and]
    cases hrec : findPath mcd [(id, [CallBase.nc n])] unsafeValue iv w n.myId n.myArgNr
        (index + 1) <;>
      simp [findPathLoop, hrec]

/-- Witness for C4 at depth cap `min(2,10) = 2` and at a concrete nested
step. -/
theorem findPath_depth_cap_witness :
    findPath 2 [("a.c:1:6", [CallBase.nc ncSample])] 0 InvalidValueType.null true
        "a.c:1:6" 1 2 = false ∧
    findPath 2 [("a.c:1:6", [CallBase.nc ncSample])] 0 InvalidValueType.null true
        "a.c:1:6" 1 0 =
      findPath 2 [("a.c:1:6", [CallBase.nc ncSample])] 0 InvalidValueType.null true
        ncSample.myId ncSample.myArgNr 1 := by
  exact ⟨(findPath_depth_cap 2 0 InvalidValueType.null true "a.c:1:6" 1 2).1 _
      (by decide),
    (findPath_depth_cap 2 0 InvalidValueType.null true "a.c:1:6" 1 0).2 ncSample
      (by decide) (by decide)⟩

end LCppC

namespace LCppC

/-! ## CTUInfo::parseTokens, per-argument slice (ctu.cpp lines 286-363)

The loop body over one call argument token.  Token-graph lookups that the
code performs on the argument token are supplied as fields of `ArgTok`;
the identity of the surrounding call (callee id, callee expression text,
call location, 0-based argument index) are parameters. -/

/-- Source `argtok->astOperand1()` of a unary `&` argument: the facts ctu.cpp
reads off the pointee token. -/
structure Pointee where
  isVariable : Bool
  variableIsArray : Bool
  hasValueType : Bool
  pointerDepth : Nat
  typeSize : Int
  values : List Value
  exprString : String

/-- One call-argument token as inspected by `parseTokens`:
its attached value list, its expression text, `some (dims, typeSize)`
when `argtok->variable()` exists and `isArray()` (with
`dimensions()` and `argtok->valueType()->typeSize(project)`), and
`some pointee` when the token is `isUnaryOp("&")`. -/
structure ArgTok where
  values : List Value
  exprString : String
  arrayDims : Option (List Int × Int)
  addrOf : Option Pointee

/-- The `for (const ValueFlow::Value &value : argtok->values())` loop of
`CTUInfo::parseTokens` (ctu.cpp lines 290-314): the records derived from
the values attached to one argument token.  Interesting values are
zero/non-inconclusive `INT` values or `BUFFER_SIZE` values; impossible
values are skipped explicitly (lines 293-295). -/
def argValueCalls (callId callFunctionName : String) (loc : Location)
    (argnr : Nat) (exprString : String) (values : List Value) :
    List FunctionCall :=
  values.filterMap (fun value =>
    if ((!value.isIntValue || value.intvalue != 0 || value.isInconclusive) &&
        !value.isBufferSizeValue) then none
    else if value.isImpossible then none
    else some
      { callValueType := value.valueType, callId, callFunctionName,
        location := loc, callArgNr := argnr + 1,
        callArgumentExpression := exprString,
        callArgValue := value.intvalue,
        warning := !value.errorSeverity,
        callValuePath := value.errorPath })

/-- The body of `for (unsigned int argnr = 0; ...)` in
`CTUInfo::parseTokens` (ctu.cpp lines 287-362): the `FunctionCall`
records appended for one argument token, in source order — the
value-loop entries, the array entry (lines 316-327), the
`&var` buffer entry (lines 329-340) and the uninitialized-pointee entry
(lines 342-362). -/
def parseArgTokenCalls (callId callFunctionName : String) (loc : Location)
    (argnr : Nat) (argtok : ArgTok) : List FunctionCall :=
  let part1 := argValueCalls callId callFunctionName loc argnr
    argtok.exprString argtok.values
  let part2 :=
    match argtok.arrayDims with
    | some (dims, typeSize) =>
      match dims with
      | [d] =>
        if d > 1 then
          [{ callValueType := ValueType.BUFFER_SIZE, callId, callFunctionName,
             location := loc, callArgNr := argnr + 1,
             callArgumentExpression := argtok.exprString,
             callArgValue := d * typeSize, warning := false,
             callValuePath := [] }]
        else []
      | _ => []
    | none => []
  let part3 :=
    match argtok.addrOf with
    | some p =>
      if p.isVariable && p.hasValueType && !p.variableIsArray then
        [{ callValueType := ValueType.BUFFER_SIZE, callId, callFunctionName,
           location := loc, callArgNr := argnr + 1,
           callArgumentExpression := argtok.exprString,
           callArgValue := p.typeSize, warning := false,
           callValuePath := [] }]
      else []
    | none => []
  let part4 :=
    match argtok.addrOf with
    | some p =>
      if p.hasValueType && p.pointerDepth == 0 then
        match p.values with
        | [v] =>
          if v.valueType = ValueType.UNINIT && !v.isInconclusive then
            [{ callValueType := ValueType.UNINIT, callId, callFunctionName,
               location := loc, callArgNr := argnr + 1,
               callArgValue := 0,
               callArgumentExpression := p.exprString,
               warning := false, callValuePath := [] }]
          else []
        | _ => []
      else []
    | none => []
  part1 ++ part2 ++ part3 ++ part4

/-- If a selector maps every filtered-out element to `none`, removing
those elements does not change a `filterMap`. -/
theorem filterMap_filter_of_none {α β : Type} (g : α → Option β) (p : α → Bool)
    (l : List α) (h : ∀ v, p v = false → g v = none) :
    (l.filter p).filterMap g = l.filterMap g := by
  induction l with
  | nil => rfl
  | cons a l ih =>
    by_cases hp : p a = true
    · simp [List.filter, hp, List.filterMap_cons, ih]
    · have hp2 : p a = false := by
        cases hpa : p a
        · rfl
        · exact absurd hpa hp
      simp [List.filter, hp2, List.filterMap_cons, h a hp2, ih]

/-- Removing the impossible values from a token's value list does not
change the records the value loop derives: the loop maps them to nothing
anyway. -/
theorem argValueCalls_filter_impossible (callId callFunctionName : String)
    (loc : Location) (argnr : Nat) (exprString : String) (values : List Value) :
    argValueCalls callId callFunctionName loc argnr exprString
        (values.filter (fun v => !v.isImpossible)) =
      argValueCalls callId callFunctionName loc argnr exprString values := by
  unfold argValueCalls
  apply filterMap_filter_of_none
  intro v hv
  have himp : v.isImpossible = true := by
    cases h : v.isImpossible
    · rw [h] at hv
      simp at hv
    · rfl
  simp [himp]

end LCppC

namespace LCppC

/-! ## The C8 impossible-value claim -/

/-- An `Impossible` `UNINIT` value as the backward value-flow pass leaves
on a token on the branch where initialization is known to have
happened. -/
def vUninitImpossible : Value :=
  { valueType := ValueType.UNINIT, bound := Bound.Point, intvalue := 0,
    floatValue := 0.0, valueKind := ValueKind.Impossible,
    hasCondition := false, defaultArg := false, errorPath := [] }

/-- The argument token `&x` where the pointee `x` carries exactly the
single value `vUninitImpossible`. -/
def argAddrOfImpossible : ArgTok :=
  { values := [], exprString := "&x", arrayDims := none,
    addrOf := some
      { isVariable := false, variableIsArray := false, hasValueType := true,
        pointerDepth := 0, typeSize := 4,
        values := [vUninitImpossible], exprString := "x" } }

/-- Source `argAddrOfImpossible` with the impossible value deleted. -/
def argAddrOfNoValue : ArgTok :=
  { values := [], exprString := "&x", arrayDims := none,
    addrOf := some
      { isVariable := false, variableIsArray := false, hasValueType := true,
        pointerDepth := 0, typeSize := 4,
        values := [], exprString := "x" } }

/-- Claim C8 counterexample: the uninitialized-pointee branch of
`parseTokens` (ctu.cpp lines 342-362) checks only `!isInconclusive()`,
not `!isImpossible()`.  On the argument `&x` whose pointee carries the
single *impossible* `UNINIT` value, `parseTokens` appends an `UNINIT`
`FunctionCall` derived from that value — deleting the value makes the
record disappear — so an impossible value does enter the CTU summary,
refuting the claim as stated. -/
theorem parseTokens_impossible_uninit_recorded :
    vUninitImpossible.isImpossible = true ∧
    (parseArgTokenCalls "a.c:1:6" "f" ⟨"b.c", 3, 5⟩ 0 argAddrOfImpossible).map
        (fun f => f.callValueType) = [ValueType.UNINIT] ∧
    parseArgTokenCalls "a.c:1:6" "f" ⟨"b.c", 3, 5⟩ 0 argAddrOfNoValue = [] := by
  refine ⟨rfl, rfl, rfl⟩

/-- Claim C8 amended: impossible values attached to the scanned argument
token itself are never recorded: deleting them from the token's value
list leaves the `FunctionCall` records produced by `parseTokens` for that
argument unchanged (the value loop skips them; the array, `&var` and
uninitialized-pointee branches do not read that list — the last one,
however, reads the pointee's own single value and misses the
impossibility check, see the counterexample). -/
theorem parseTokens_skips_impossible_values (callId callFunctionName : String)
    (loc : Location) (argnr : Nat) (argtok : ArgTok) :
    parseArgTokenCalls callId callFunctionName loc argnr
        { argtok with values := argtok.values.filter (fun v => !v.isImpossible) } =
      parseArgTokenCalls callId callFunctionName loc argnr argtok := by
  simp only [parseArgTokenCalls]
  rw [argValueCalls_filter_impossible]

end LCppC

namespace LCppC

/-! ## CppCheck driver state and diagnostic bus (src/lib/cppcheck.cpp)

The per-instance members touched by `reportErr`, `internalError`, the
configuration loop and `analyseWholeProgram`, plus the two observable
output channels `mErrorLogger.reportErr` / `mErrorLogger.reportOut`.
The project/settings flags consulted by these functions ride along as
immutable fields. -/

structure CppCheckState where
  mErrorList : List String
  mExitCode : Nat
  mSuppressInternalErrorFound : Bool
  useGlobalSuppressions : Bool
  infoSeverityEnabled : Bool
  hasCTU : Bool
  loggerErrs : List ErrMsg
  loggerOut : List String
  ctuErrs : List ErrMsg
deriving DecidableEq, Repr

/-- Source `CppCheck::reportErr` (cppcheck.cpp lines 1160-1198): reset the
suppress flag; drop non-reportable files; drop empty renderings; drop
duplicates of an already-emitted rendered text; consult the local or
global suppression per `mUseGlobalSuppressions`; raise the exit code
unless `nofail`/`nomsg` masks the message; record the rendered text and
deliver to the `ErrorLogger` and, when present, to the `CTUInfo`.
The source's sequence of in-place member mutations is flattened into one
record update per exit path. -/
def reportErr (s : CppCheckState) (msg : ErrMsg) : CppCheckState :=
  if !msg.libraryReportable then { s with mSuppressInternalErrorFound := false }
  else if msg.rendered = "" then { s with mSuppressInternalErrorFound := false }
  else if s.mErrorList.contains msg.rendered then
    { s with mSuppressInternalErrorFound := false }
  else if (if s.useGlobalSuppressions then msg.suppressedGlobal
           else msg.suppressedLocal) then
    { s with mSuppressInternalErrorFound := true }
  else
    { s with
      mSuppressInternalErrorFound := false,
      mExitCode := if !msg.nofailSuppressed && !msg.suppressedGlobal then 1
        else s.mExitCode,
      mErrorList := s.mErrorList ++ [msg.rendered],
      loggerErrs := s.loggerErrs ++ [msg],
      ctuErrs := if s.hasCTU then s.ctuErrs ++ [msg] else s.ctuErrs }

/-- Source `CppCheck::internalError` (cppcheck.cpp lines 746-767): build the
bail-out text; with information severity enabled deliver an
`internalError` information diagnostic straight to the `ErrorLogger`,
otherwise print the text on stdout. -/
def internalError (s : CppCheckState) (filename msg : String) : CppCheckState :=
  let fullmsg := "Bailing out from checking " ++ filename ++
    " since there was an internal error: " ++ msg
  if s.infoSeverityEnabled then
    { s with loggerErrs := s.loggerErrs ++
        [{ id := "internalError", rendered := fullmsg, libraryReportable := true,
           suppressedGlobal := false, suppressedLocal := false,
           nofailSuppressed := false }] }
  else
    { s with loggerOut := s.loggerOut ++ [fullmsg] }

/-- The three TU-level exceptions caught at the end of
`CppCheck::checkCTU` (cppcheck.cpp lines 732-739). -/
inductive TUException : Type where
  | runtimeError (what : String)
  | badAlloc (what : String)
  | internalErr (errorMessage : String)
deriving DecidableEq, Repr

/-- The `what()` / `errorMessage` payload of a TU-level exception. -/
def TUException.what : TUException → String
  | .runtimeError w => w
  | .badAlloc w => w
  | .internalErr m => m

/-- The catch clauses of `CppCheck::checkCTU` (cppcheck.cpp lines
732-739): all three exceptions go through `internalError`; only
`InternalError` additionally sets `mExitCode = 1`.  `checkCTU` then
returns `mExitCode`. -/
def handleTUException (s : CppCheckState) (sourcefile : String) :
    TUException → CppCheckState
  | .runtimeError w => internalError s sourcefile w
  | .badAlloc w => internalError s sourcefile w
  | .internalErr m => { internalError s sourcefile m with mExitCode := 1 }

/-- The events relevant to diagnostic dedup across one `CppCheck`
instance: a call to `CppCheck::reportErr`, and the end of one
`checkCTU` invocation, which executes `mErrorList.clear()`
(cppcheck.cpp line 741). -/
inductive DriverEvent : Type where
  | report (msg : ErrMsg)
  | finishTU

def stepEvent (s : CppCheckState) : DriverEvent → CppCheckState
  | .report m => reportErr s m
  | .finishTU => { s with mErrorList := [] }

def runEvents (s : CppCheckState) (evs : List DriverEvent) : CppCheckState :=
  evs.foldl stepEvent s

/-- The member initializers of the `CppCheck` constructor (cppcheck.cpp
lines 271-284), with the CLI's `useGlobalSuppressions = true` and
information severity enabled; no `mCTU` yet and empty output channels. -/
def initCppCheckState : CppCheckState :=
  { mErrorList := [], mExitCode := 0, mSuppressInternalErrorFound := false,
    useGlobalSuppressions := true, infoSeverityEnabled := true,
    hasCTU := false, loggerErrs := [], loggerOut := [], ctuErrs := [] }

end LCppC

namespace LCppC

/-! ## The configuration loop slice (cppcheck.cpp lines 509-654)

The per-configuration outcomes of the stages whose implementations are
outside src/ (preprocessing, tokenizer) are oracle inputs; the dedup and
skip logic between them is the embedded code. -/

/-- One configuration as the loop sees it: its name (`mCurrentConfig`),
whether `preprocess`/`createTokens` succeeded without throwing, whether
`tokenizer.tokens()` is non-null, whether `simplifyTokens0` /
`simplifyTokens1` succeeded, and the two token-list checksums
(`tokenizer.list.calculateChecksum()` after each stage). -/
structure CfgOutcome where
  name : String
  createTokensOk : Bool
  hasTokens : Bool
  simplify0Ok : Bool
  checksum0 : Nat
  simplify1Ok : Bool
  checksum1 : Nat
deriving DecidableEq, Repr

/-- The loop-carried state: the two per-TU checksum sets, the
configurations for which `purgedConfigurationMessage` was invoked, and
the configurations that reached `checkNormalTokens` (i.e. were actually
checked). -/
structure ConfigLoopState where
  checksums0 : List Nat
  checksums1 : List Nat
  purged : List String
  checked : List String
deriving DecidableEq, Repr

/-- One iteration of the configuration loop of `CppCheck::checkCTU`
(cppcheck.cpp lines 556-626), from `createTokens` to
`checkNormalTokens`: each `continue` returns the state reached so far.
The two dedup blocks (lines 589-597 and 614-622) run only when
`mProject.force || mProject.maxConfigs > 1`; `std::set::insert(..).second
== false` is the membership test; the `purgedConfiguration` message is
emitted only under `mSettings.debugwarnings`. -/
def processConfig (force : Bool) (maxConfigs : Nat) (debugwarnings : Bool)
    (c : CfgOutcome) (s : ConfigLoopState) : ConfigLoopState :=
  if c.createTokensOk = false then s
  else if c.hasTokens = false then s
  else if c.simplify0Ok = false then s
  else if (force || decide (maxConfigs > 1)) && s.checksums0.contains c.checksum0 then
    if debugwarnings then { s with purged := s.purged ++ [c.name] } else s
  else
    let s := if force || decide (maxConfigs > 1) then
        { s with checksums0 := s.checksums0 ++ [c.checksum0] }
      else s
    if c.simplify1Ok = false then s
    else if (force || decide (maxConfigs > 1)) && s.checksums1.contains c.checksum1 then
      if debugwarnings then { s with purged := s.purged ++ [c.name] } else s
    else
      let s := if force || decide (maxConfigs > 1) then
          { s with checksums1 := s.checksums1 ++ [c.checksum1] }
        else s
      { s with checked := s.checked ++ [c.name] }

end LCppC

namespace LCppC

/-! ## The build-cache branch of checkCTU (cppcheck.cpp lines 444-460) -/

/-- The outcome of the cache branch: whether `checkCTU` returned early
(`known results => no need to reanalyze file`), the `CTUInfo` afterwards,
and the driver state after replaying the cached errors. -/
structure CacheStepResult where
  usedCache : Bool
  ctu : CTUInfoM
  state : CppCheckState

/-- cppcheck.cpp lines 444-460: when the build directory is configured,
compute the checksum (a parameter here — `calculateChecksum` is outside
src/) and call `tryLoadFromFile`; on success replay every loaded error
through `CppCheck::reportErr` and return early.  `usedCache = false`
means the driver continues into configuration enumeration. -/
def checkCTUCacheStep (parseError : XMLElement → ErrMsg) (checks : List CheckM)
    (buildDir : String) (checksum : Nat) (ctu : CTUInfoM) (s : CppCheckState) :
    CacheStepResult :=
  if buildDir = "" then ⟨false, ctu, s⟩
  else
    let r := ctu.tryLoadFromFile parseError checks checksum
    if r.1 then ⟨true, r.2, r.2.mErrors.foldl reportErr s⟩
    else ⟨false, r.2, s⟩

end LCppC

namespace LCppC

/-! ## analyseWholeProgram (cppcheck.cpp lines 1235-1252) -/

/-- The `combinedCTU` built by `CppCheck::analyseWholeProgram`: the
concatenation of every TU's `functionCalls` and `nestedCalls`. -/
def combineCTUCalls (ctus : List CTUInfoM) : List FunctionCall × List NestedCall :=
  ctus.foldl (fun acc ctu =>
    (acc.1 ++ ctu.functionCalls, acc.2 ++ ctu.nestedCalls)) ([], [])

/-- The `for (Check* check : Check::instances()) errors |=
check->analyseWholeProgram(...)` loop.  A check implementation is outside
src/: it is a function from the combined summary and the driver state
(reachable through `ctx`, which carries the `CppCheck` itself) to its
boolean result and the updated state. -/
def wpFold
    (checks : List (List FunctionCall × List NestedCall → CppCheckState →
      Bool × CppCheckState))
    (combined : List FunctionCall × List NestedCall) (s : CppCheckState) :
    Bool × CppCheckState :=
  checks.foldl (fun acc ch =>
    let br := ch combined acc.2
    (acc.1 || br.1, br.2)) (false, s)

/-- Source `CppCheck::analyseWholeProgram` (cppcheck.cpp lines 1235-1252):
build the combined CTU, fold the checks, and
`return errors && (mExitCode > 0)`. -/
def analyseWholeProgram
    (checks : List (List FunctionCall × List NestedCall → CppCheckState →
      Bool × CppCheckState))
    (ctus : List CTUInfoM) (s : CppCheckState) : Bool × CppCheckState :=
  let r := wpFold checks (combineCTUCalls ctus) s
  (r.1 && decide (0 < r.2.mExitCode), r.2)

end LCppC

namespace LCppC

/-! ## The C5 TU-level failure-handling claim -/

/-- Claim C5 counterexample: a `std::runtime_error` thrown at the TU level
with a clean driver state yields the bail-out `internalError` diagnostic
but leaves the exit code at 0 — the `catch (const std::runtime_error&)`
and `catch (const std::bad_alloc&)` clauses of `checkCTU` do not set
`mExitCode = 1`; only the `InternalError` clause does.  This refutes the
claim that the exit code is set to 1 in all three cases. -/
theorem checkCTU_runtimeError_exit_code_not_set :
    (handleTUException initCppCheckState "test.c"
        (TUException.runtimeError "boom")).mExitCode = 0 ∧
    (handleTUException initCppCheckState "test.c"
        (TUException.runtimeError "boom")).loggerErrs.map
          (fun m => (m.id, m.rendered)) =
      [("internalError",
        "Bailing out from checking test.c since there was an internal error: boom")] := by
  decide

/-- Claim C5 amended: all three TU-level exceptions
(`runtime_error`, `bad_alloc`, `InternalError`) emit the
`Bailing out from checking <file> since there was an internal error:
<what>` text — as an `internalError` diagnostic when information
severity is enabled, otherwise on standard output — but the returned
exit code is set to 1 only for `InternalError`; for `runtime_error` and
`bad_alloc` it is left unchanged. -/
theorem handleTUException_spec (s : CppCheckState) (sourcefile : String)
    (e : TUException) :
    (s.infoSeverityEnabled = true →
      (handleTUException s sourcefile e).loggerErrs = s.loggerErrs ++
        [{ id := "internalError",
           rendered := "Bailing out from checking " ++ sourcefile ++
             " since there was an internal error: " ++ e.what,
           libraryReportable := true, suppressedGlobal := false,
           suppressedLocal := false, nofailSuppressed := false }]) ∧
    (s.infoSeverityEnabled = false →
      (handleTUException s sourcefile e).loggerOut = s.loggerOut ++
        ["Bailing out from checking " ++ sourcefile ++
          " since there was an internal error: " ++ e.what]) ∧
    (handleTUException s sourcefile e).mExitCode =
      (match e with
       | .internalErr _ => 1
       | .runtimeError _ => s.mExitCode
       | .badAlloc _ => s.mExitCode) := by
  refine ⟨fun hinfo => ?_, fun hinfo => ?_, ?_⟩
  · cases e <;> simp [handleTUException, internalError, TUException.what, hinfo]
  · cases e <;> simp [handleTUException, internalError, TUException.what, hinfo]
  · cases e <;> cases h : s.infoSeverityEnabled <;>
      simp [handleTUException, internalError, h]

/-- Witness for C5 (amended) at a concrete `bad_alloc`. -/
theorem handleTUException_spec_witness :
    initCppCheckState.infoSeverityEnabled = true ∧
    (handleTUException initCppCheckState "a.c"
        (TUException.badAlloc "oom")).loggerErrs =
      initCppCheckState.loggerErrs ++
        [{ id := "internalError",
           rendered := "Bailing out from checking " ++ "a.c" ++
             " since there was an internal error: " ++
             (TUException.badAlloc "oom").what,
           libraryReportable := true, suppressedGlobal := false,
           suppressedLocal := false, nofailSuppressed := false }] ∧
    (handleTUException initCppCheckState "a.c"
        (TUException.badAlloc "oom")).mExitCode = initCppCheckState.mExitCode := by
  exact ⟨rfl,
    (handleTUException_spec initCppCheckState "a.c" (TUException.badAlloc "oom")).1 rfl,
    (handleTUException_spec initCppCheckState "a.c" (TUException.badAlloc "oom")).2.2⟩

end LCppC

namespace LCppC

/-! ## The C6 purged-configuration claim -/

/-- An already-seen configuration: all pipeline stages succeed and its
post-`simplifyTokens0` checksum equals one recorded earlier for this
TU. -/
def cfgDup : CfgOutcome :=
  { name := "A", createTokensOk := true, hasTokens := true, simplify0Ok := true,
    checksum0 := 5, simplify1Ok := true, checksum1 := 9 }

/-- Loop state in which checksum 5 was already analyzed. -/
def cfgLoopSeen : ConfigLoopState :=
  { checksums0 := [5], checksums1 := [], purged := [], checked := [] }

/-- Claim C6 counterexample: with the default settings (`force` off,
`maxConfigs = 12`, `debugwarnings` off), a configuration whose normalized
token-list checksum was already seen is skipped — but *no*
`purgedConfiguration` diagnostic is emitted, because the message is
guarded by `mSettings.debugwarnings` (cppcheck.cpp lines 593-594).  This
refutes the claim that the diagnostic is emitted for every purged
configuration. -/
theorem purgedConfiguration_not_emitted_without_debugwarnings :
    (processConfig false 12 false cfgDup cfgLoopSeen).purged = [] ∧
    (processConfig false 12 false cfgDup cfgLoopSeen).checked = [] ∧
    (processConfig false 12 false cfgDup cfgLoopSeen) = cfgLoopSeen := by
  decide

/-- Claim C6 amended: when `force` is set or `maxConfigs > 1`, a
configuration whose post-`simplifyTokens0` checksum is already in the
per-TU set is skipped without running checks, and the
`purgedConfiguration` diagnostic is emitted for it **iff**
`debugwarnings` is enabled; nothing else in the loop state changes. -/
theorem processConfig_purged_spec (force : Bool) (maxConfigs : Nat) (dbg : Bool)
    (c : CfgOutcome) (s : ConfigLoopState)
    (hgate : force = true ∨ 1 < maxConfigs)
    (h1 : c.createTokensOk = true) (h2 : c.hasTokens = true)
    (h3 : c.simplify0Ok = true)
    (hdup : s.checksums0.contains c.checksum0 = true) :
    processConfig force maxConfigs dbg c s =
      (if dbg then { s with purged := s.purged ++ [c.name] } else s) := by
  have hg : (force || decide (maxConfigs > 1)) = true := by
    rcases hgate with h | h <;> simp [h]
  have hdup2 : c.checksum0 ∈ s.checksums0 := by
    simpa using hdup
  unfold processConfig
  simp [h1, h2, h3, hg, hdup2]

/-- Witness for C6 (amended): with `debugwarnings` on, the duplicate
configuration is skipped and the diagnostic recorded. -/
theorem processConfig_purged_spec_witness :
    processConfig false 12 true cfgDup cfgLoopSeen =
      (if true then { cfgLoopSeen with purged := cfgLoopSeen.purged ++ [cfgDup.name] }
       else cfgLoopSeen) := by
  exact processConfig_purged_spec false 12 true cfgDup cfgLoopSeen
    (Or.inr (by decide)) rfl rfl rfl rfl

end LCppC

namespace LCppC

/-! ## The C7 diagnostic-dedup claim -/

/-- A `reportErr` call either leaves the delivered list and the rendered
set unchanged (drop paths), or delivers exactly the message and records
its rendered text — and delivery happens only when the rendered text was
not yet recorded. -/
theorem reportErr_changes (s : CppCheckState) (m : ErrMsg) :
    ((reportErr s m).loggerErrs = s.loggerErrs ∧
      (reportErr s m).mErrorList = s.mErrorList) ∨
    (s.mErrorList.contains m.rendered = false ∧
      (reportErr s m).loggerErrs = s.loggerErrs ++ [m] ∧
      (reportErr s m).mErrorList = s.mErrorList ++ [m.rendered]) := by
  unfold reportErr
  split_ifs with hh1 hh2 hh3 hh4 hh5 hh6 <;>
    first
      | exact Or.inl ⟨rfl, rfl⟩
      | exact Or.inr ⟨by simpa using ‹¬s.mErrorList.contains m.rendered = true›,
          rfl, rfl⟩

/-- One `reportErr` call preserves the dedup invariant for a fixed
rendered text `r`: at most one delivered message renders to `r`, and if
one was delivered then `r` is recorded in `mErrorList`. -/
theorem reportErr_dedup_invariant (r : String) (s : CppCheckState) (m : ErrMsg)
    (h1 : s.loggerErrs.countP (fun x => x.rendered == r) ≤ 1)
    (h2 : 1 ≤ s.loggerErrs.countP (fun x => x.rendered == r) →
      s.mErrorList.contains r = true) :
    ((reportErr s m).loggerErrs.countP (fun x => x.rendered == r) ≤ 1) ∧
    (1 ≤ (reportErr s m).loggerErrs.countP (fun x => x.rendered == r) →
      (reportErr s m).mErrorList.contains r = true) := by
  rcases reportErr_changes s m with ⟨hl, he⟩ | ⟨hnc, hl, he⟩
  · rw [hl, he]
    exact ⟨h1, h2⟩
  · rw [hl, he]
    by_cases hmr : m.rendered = r
    · have hcount : s.loggerErrs.countP (fun x => x.rendered == r) = 0 := by
        by_contra hne
        have hco := h2 (by omega)
        rw [hmr] at hnc
        rw [hco] at hnc
        exact Bool.noConfusion hnc
      constructor
      · rw [List.countP_append, hcount]
        simp [List.countP_cons, hmr]
      · intro _
        rw [hmr]
        simp
    · have hmr2 : (m.rendered == r) = false := by
        simpa using hmr
      constructor
      · rw [List.countP_append]
        simpa [List.countP_cons, hmr2] using h1
      · intro hc
        have hcold : 1 ≤ s.loggerErrs.countP (fun x => x.rendered == r) := by
          simpa [List.countP_append, List.countP_cons, hmr2] using hc
        have hcon := h2 hcold
        simp at hcon ⊢
        exact Or.inl hcon

/-- Folding `reportErr` over a message list preserves the dedup
invariant. -/
theorem foldl_reportErr_dedup_invariant (r : String) (msgs : List ErrMsg)
    (s : CppCheckState)
    (h1 : s.loggerErrs.countP (fun x => x.rendered == r) ≤ 1)
    (h2 : 1 ≤ s.loggerErrs.countP (fun x => x.rendered == r) →
      s.mErrorList.contains r = true) :
    ((msgs.foldl reportErr s).loggerErrs.countP (fun x => x.rendered == r) ≤ 1) ∧
    (1 ≤ (msgs.foldl reportErr s).loggerErrs.countP (fun x => x.rendered == r) →
      (msgs.foldl reportErr s).mErrorList.contains r = true) := by
  induction msgs generalizing s with
  | nil => exact ⟨h1, h2⟩
  | cons m ms ih =>
    have h := reportErr_dedup_invariant r s m h1 h2
    exact ih (reportErr s m) h.1 h.2

/-- Claim C7 counterexample: `mErrorList` is cleared at the end of every
`checkCTU` invocation (cppcheck.cpp line 741), so the same rendered text
reported while checking two TUs of the same `CppCheck` instance reaches
`ErrorLogger::reportErr` twice.  This refutes the claim that the dedup
spans one whole run of the instance. -/
theorem reportErr_duplicate_across_TUs :
    (runEvents initCppCheckState
        [DriverEvent.report
           { id := "nullPointer", rendered := "a.c:3: null pointer dereference",
             libraryReportable := true, suppressedGlobal := false,
             suppressedLocal := false, nofailSuppressed := false },
         DriverEvent.finishTU,
         DriverEvent.report
           { id := "nullPointer", rendered := "a.c:3: null pointer dereference",
             libraryReportable := true, suppressedGlobal := false,
             suppressedLocal := false, nofailSuppressed := false }]).loggerErrs.map
      (fun m => m.rendered) =
    ["a.c:3: null pointer dereference", "a.c:3: null pointer dereference"] := by
  decide

/-- Claim C7 amended: within one `checkCTU` invocation (between two clears
of `mErrorList`), every rendered text reaches `ErrorLogger::reportErr` at
most once — duplicates are dropped before suppression matching and
before the exit code is touched, leaving the whole state unchanged
except for the reset of `mSuppressInternalErrorFound`.  Across TUs of
the same instance the dedup does not hold, because `checkCTU` clears
`mErrorList` on exit (see the counterexample). -/
theorem reportErr_dedup_spec :
    (∀ (msgs : List ErrMsg) (r : String),
      ((runEvents initCppCheckState (msgs.map DriverEvent.report)).loggerErrs.countP
          (fun m => m.rendered == r)) ≤ 1) ∧
    (∀ (s : CppCheckState) (m : ErrMsg), m.libraryReportable = true →
      ¬m.rendered = "" → s.mErrorList.contains m.rendered = true →
      reportErr s m = { s with mSuppressInternalErrorFound := false }) := by
  constructor
  · intro msgs r
    have heq : runEvents initCppCheckState (msgs.map DriverEvent.report) =
        msgs.foldl reportErr initCppCheckState := by
      unfold runEvents
      rw [List.foldl_map]
      rfl
    rw [heq]
    have h := foldl_reportErr_dedup_invariant r msgs initCppCheckState
      (by simp [initCppCheckState]) (by simp [initCppCheckState])
    exact h.1
  · intro s m hlib hren hdup
    have hdup2 : m.rendered ∈ s.mErrorList := by
      simpa using hdup
    unfold reportErr
    simp [hlib, hren, hdup2]

/-- Witness for C7 (amended): two identical reports inside one TU, one
delivery; the second call is a no-op apart from the suppress-flag
reset. -/
theorem reportErr_dedup_spec_witness :
    ((runEvents initCppCheckState
        ([{ id := "e", rendered := "dup", libraryReportable := true,
            suppressedGlobal := false, suppressedLocal := false,
            nofailSuppressed := false },
          { id := "e", rendered := "dup", libraryReportable := true,
            suppressedGlobal := false, suppressedLocal := false,
            nofailSuppressed := false }].map DriverEvent.report)).loggerErrs.countP
        (fun m => m.rendered == "dup")) ≤ 1 ∧
    reportErr
        (reportErr initCppCheckState
          { id := "e", rendered := "dup", libraryReportable := true,
            suppressedGlobal := false, suppressedLocal := false,
            nofailSuppressed := false })
        { id := "e", rendered := "dup", libraryReportable := true,
          suppressedGlobal := false, suppressedLocal := false,
          nofailSuppressed := false } =
      { (reportErr initCppCheckState
          { id := "e", rendered := "dup", libraryReportable := true,
            suppressedGlobal := false, suppressedLocal := false,
            nofailSuppressed := false }) with mSuppressInternalErrorFound := false } := by
  exact ⟨reportErr_dedup_spec.1 _ "dup",
    reportErr_dedup_spec.2 _ _ rfl (by decide) (by decide)⟩

end LCppC

namespace LCppC

/-! ## The C2 build-cache claim -/

/-- Source `tryLoadFromFile` succeeds exactly when there is a source file, the
analyzer file exists and parses, and the root's `checksum` attribute
equals the decimal text of the computed checksum. -/
theorem tryLoadFromFile_succeeds_iff (parseError : XMLElement → ErrMsg)
    (checks : List CheckM) (checksum : Nat) (ctu : CTUInfoM) :
    (ctu.tryLoadFromFile parseError checks checksum).1 = true ↔
      (ctu.sourcefile ≠ "" ∧ ctu.analyzerfileExists = true ∧
        ∃ root, ctu.analyzerfileDoc = some root ∧
          root.attr "checksum" = some (toString checksum)) := by
  unfold CTUInfoM.tryLoadFromFile
  by_cases h1 : ctu.sourcefile = ""
  · simp [h1]
  · by_cases h2 : ctu.analyzerfileExists = true
    · cases hdoc : ctu.analyzerfileDoc with
      | none => simp [h1, h2, hdoc]
      | some root =>
        cases hattr : root.attr "checksum" with
        | none => simp [h1, h2, hdoc, hattr]
        | some a =>
          by_cases ha : a = toString checksum
          · simp [h1, h2, hdoc, hattr, ha]
          · simp [h1, h2, hdoc, hattr, ha]
    · simp [h1, h2]

/-- Claim C2: with a non-empty build directory, `checkCTU` takes the cache
branch: `tryLoadFromFile(checksum)` succeeds iff the stored analyzer
file's root `checksum` attribute equals the computed checksum (and the
file exists and parses); on success every cached error message is
replayed through `CppCheck::reportErr` and the driver returns without
enumerating configurations (`usedCache = true`); on failure full
analysis proceeds (`usedCache = false`). -/
theorem checkCTU_cache_hit_spec (parseError : XMLElement → ErrMsg)
    (checks : List CheckM) (buildDir : String) (checksum : Nat)
    (ctu : CTUInfoM) (s : CppCheckState)
    (hdir : buildDir ≠ "") :
    ((ctu.tryLoadFromFile parseError checks checksum).1 = true ↔
      (ctu.sourcefile ≠ "" ∧ ctu.analyzerfileExists = true ∧
        ∃ root, ctu.analyzerfileDoc = some root ∧
          root.attr "checksum" = some (toString checksum))) ∧
    ((ctu.tryLoadFromFile parseError checks checksum).1 = true →
      checkCTUCacheStep parseError checks buildDir checksum ctu s =
        ⟨true, (ctu.tryLoadFromFile parseError checks checksum).2,
          ((ctu.tryLoadFromFile parseError checks checksum).2.mErrors).foldl
            reportErr s⟩) ∧
    ((ctu.tryLoadFromFile parseError checks checksum).1 = false →
      checkCTUCacheStep parseError checks buildDir checksum ctu s =
        ⟨false, (ctu.tryLoadFromFile parseError checks checksum).2, s⟩) := by
  refine ⟨tryLoadFromFile_succeeds_iff parseError checks checksum ctu,
    fun h => ?_, fun h => ?_⟩
  · unfold checkCTUCacheStep
    rw [if_neg hdir]
    simp [h]
  · unfold checkCTUCacheStep
    rw [if_neg hdir]
    simp [h]

/-- A cached analyzer file: checksum 3, one cached diagnostic. -/
def rootCacheW : XMLElement :=
  XMLElement.mk "analyzerinfo" [("checksum", "3")] [XMLElement.mk "error" [] []]

/-- A `CTUInfo` whose analyzer file holds `rootCacheW`. -/
def ctuCacheW : CTUInfoM :=
  { sourcefile := "c.c", analyzerfileExists := true,
    analyzerfileDoc := some rootCacheW, mChecksum := 0, mErrors := [],
    functionCalls := [], nestedCalls := [], mCheckInfo := [] }

/-- The `ErrorMessage` XML constructor for the witness. -/
def parseErrW : XMLElement → ErrMsg := fun _ =>
  { id := "cachedErr", rendered := "cached diagnostic",
    libraryReportable := true, suppressedGlobal := false,
    suppressedLocal := false, nofailSuppressed := false }

/-- Witness for C2: a concrete matching checksum takes the cache
branch. -/
theorem checkCTU_cache_hit_spec_witness :
    (ctuCacheW.tryLoadFromFile parseErrW [] 3).1 = true ∧
    checkCTUCacheStep parseErrW [] "bd" 3 ctuCacheW initCppCheckState =
      ⟨true, (ctuCacheW.tryLoadFromFile parseErrW [] 3).2,
        ((ctuCacheW.tryLoadFromFile parseErrW [] 3).2.mErrors).foldl reportErr
          initCppCheckState⟩ := by
  have h := checkCTU_cache_hit_spec parseErrW [] "bd" 3 ctuCacheW
    initCppCheckState (by decide)
  have hs : (ctuCacheW.tryLoadFromFile parseErrW [] 3).1 = true :=
    h.1.mpr ⟨by decide, rfl, ⟨rootCacheW, rfl, by decide⟩⟩
  exact ⟨hs, h.2.1 hs⟩

end LCppC

namespace LCppC

/-! ## The C10 whole-program-result claim -/

/-- If every registered check's `analyseWholeProgram` returns `false`,
the accumulated `errors` flag stays at the fold's initial value. -/
theorem wpFold_all_false
    (checks : List (List FunctionCall × List NestedCall → CppCheckState →
      Bool × CppCheckState))
    (combined : List FunctionCall × List NestedCall)
    (hall : ∀ ch ∈ checks, ∀ c s2, (ch c s2).1 = false) :
    ∀ acc : Bool × CppCheckState,
      (checks.foldl (fun acc ch =>
        let br := ch combined acc.2
        (acc.1 || br.1, br.2)) acc).1 = acc.1 := by
  induction checks with
  | nil => intro acc; rfl
  | cons ch chs ih =>
    intro acc
    have h := ih (fun c hc => hall c (List.mem_cons_of_mem ch hc)) (acc.1 || (ch combined acc.2).1, (ch combined acc.2).2)
    simp only [List.foldl_cons] at h ⊢
    rw [h, hall ch (List.mem_cons_self ch chs) combined acc.2]
    simp

/-- Claim C10 amended: `analyseWholeProgram` returns `true` iff the
OR-accumulated check results flag is set *and* `mExitCode > 0` at return
time; in particular it returns `false` whenever the exit code is still 0
after the whole-program checks ran, and whenever every check returned
`false`.  (The parenthetical of the original claim fails: a
whole-program check that reports an unsuppressed diagnostic does so
through `CppCheck::reportErr`, which itself sets `mExitCode = 1` — see
the counterexample.) -/
theorem analyseWholeProgram_spec
    (checks : List (List FunctionCall × List NestedCall → CppCheckState →
      Bool × CppCheckState))
    (ctus : List CTUInfoM) (s : CppCheckState) :
    ((analyseWholeProgram checks ctus s).1 = true ↔
      ((wpFold checks (combineCTUCalls ctus) s).1 = true ∧
        0 < (wpFold checks (combineCTUCalls ctus) s).2.mExitCode)) ∧
    ((wpFold checks (combineCTUCalls ctus) s).2.mExitCode = 0 →
      (analyseWholeProgram checks ctus s).1 = false) ∧
    ((∀ ch ∈ checks, ∀ c s2, (ch c s2).1 = false) →
      (analyseWholeProgram checks ctus s).1 = false) := by
  refine ⟨?_, fun h0 => ?_, fun hall => ?_⟩
  · unfold analyseWholeProgram
    simp
  · unfold analyseWholeProgram
    simp [h0]
  · unfold analyseWholeProgram
    have h := wpFold_all_false checks (combineCTUCalls ctus) hall (false, s)
    unfold wpFold
    simp [h]

/-- A whole-program check that finds one defect: it reports an
unsuppressed diagnostic through the driver's `reportErr` (the `ctx` it
receives carries the `CppCheck` itself) and returns `true`. -/
def wpCheckReporting :
    List FunctionCall × List NestedCall → CppCheckState → Bool × CppCheckState :=
  fun _ st =>
    (true, reportErr st
      { id := "ctuNullPointer", rendered := "b.c:2: null pointer from CTU",
        libraryReportable := true, suppressedGlobal := false,
        suppressedLocal := false, nofailSuppressed := false })

/-- Claim C10 counterexample: with a clean driver state (`mExitCode = 0`,
no prior per-TU diagnostic), a whole-program check that reports one
unsuppressed error makes `analyseWholeProgram` return `true`, because
the report itself raises `mExitCode` — refuting the parenthetical claim
that it returns `false` whenever no *per-TU* diagnostic set the exit
code. -/
theorem analyseWholeProgram_true_without_prior_exitcode :
    initCppCheckState.mExitCode = 0 ∧
    (analyseWholeProgram [wpCheckReporting] [] initCppCheckState).1 = true := by
  decide

/-- Witness for C10 (amended) at a concrete run where the exit code
stays 0. -/
theorem analyseWholeProgram_spec_witness :
    (wpFold [] (combineCTUCalls []) initCppCheckState).2.mExitCode = 0 ∧
    (analyseWholeProgram [] [] initCppCheckState).1 = false := by
  exact ⟨rfl, (analyseWholeProgram_spec [] [] initCppCheckState).2.1 rfl⟩

end LCppC
